import Mathlib

/-!
Verification of the `weim` one-shot geolocation handshake server.

Shallow embedding of `src/lib.rs` (crate `weim`).  The crate exposes a single
public operation `where_i_am` which starts a loopback HTTP server, serves a
fixed bootstrap page, accepts location reports posted as JSON to `/update`,
and returns the first accepted report's latitude, longitude and accuracy as a
vector (or the empty vector when no report was accepted before the loop ends).

Modelling decisions:
* Rust `f64` values are modelled as `Rat`: the server performs no arithmetic
  on the coordinates, it only stores and returns the parsed numbers, so an
  exact numeric carrier is faithful for the dataflow properties proved here.
* A request body is either well-formed JSON (given as an abstract `Json`
  value) or malformed text; `serde_json::from_str::<LocationData>` is embedded
  by `fromJson` below, following the `serde` derive semantics for a struct
  with four fields: top level must be a JSON object (fields matched by name,
  unknown fields ignored, duplicate fields an error, all four required) or a
  JSON array of exactly four values in field declaration order; `f64` fields
  accept any JSON number, the `i64` field accepts only integer literals in
  `i64` range.
* The `tiny_http` response constructors are embedded by the status, header
  list and body they produce: `Response::from_string` sets a default
  `Content-Type: text/plain; charset=utf-8`, and `with_header` with a
  `Content-Type` header replaces that default in place.
* The browser launcher / browser killer threads touch no session state and
  are outside the wire contract; they are not modelled.
-/

/-- The embedded bootstrap page `HTML_CONTENT` (lines 8-63), byte for byte
(braces, quotes, apostrophes and backticks written as escapes). -/
def HTML_CONTENT : String :=
  "
<!DOCTYPE html> 
<html lang=\"ko\">
<head>
    <meta charset=\"UTF-8\">
    <meta name=\"viewport\" content=\"width=device-width, initial-scale=1.0\">
    <title>위치 추적</title>
    <style>
        body \x7b
            margin: 0;
            padding: 20px;
            font-family: monospace;
            background: #000;
            color: #0f0;
        \x7d
        #status \x7b font-size: 14px; \x7d
    </style>
</head>
<body>
    <div id=\"status\">위치 추적 중...</div>
    <script>
        window.addEventListener(\x27DOMContentLoaded\x27, () => \x7b
            if (!navigator.geolocation) \x7b
                document.getElementById(\x27status\x27).textContent = \x27위치 정보 지원 안 됨\x27;
                return;
            \x7d
            navigator.geolocation.getCurrentPosition(
                async (position) => \x7b
                    const data = \x7b
                        latitude: position.coords.latitude,
                        longitude: position.coords.longitude,
                        accuracy: position.coords.accuracy,
                        timestamp: Date.now()
                    \x7d;
                    document.getElementById(\x27status\x27).textContent = 
                        \x60위도: $\x7bdata.latitude.toFixed(6)\x7d, 경도: $\x7bdata.longitude.toFixed(6)\x7d, 정확도: $\x7bdata.accuracy.toFixed(2)\x7dm\x60;

                    await fetch(\x27/update\x27, \x7b
                        method: \x27POST\x27,
                        headers: \x7b \x27Content-Type\x27: \x27application/json\x27 \x7d,
                        body: JSON.stringify(data)
                    \x7d);

                    // 자동으로 창 닫기
                    setTimeout(() => window.close(), 1500);
                \x7d,
                (error) => \x7b
                    document.getElementById(\x27status\x27).textContent = \x27위치 오류: \x27 + error.message;
                \x7d,
                \x7b enableHighAccuracy: true, timeout: 5000 \x7d
            );
        \x7d);
    </script>
</body>
</html>
"

/-- A JSON number as produced by `serde_json`'s parser: either an integer
literal (no fraction or exponent, held as `i64`/`u64`) or a floating literal,
whose numeric value we carry exactly as a `Rat`. -/
inductive JNum where
  | int (z : Int)
  | float (q : Rat)
deriving DecidableEq, Repr

/-- Abstract JSON values (the output of `serde_json`'s parser). -/
inductive Json where
  | null
  | bool (b : Bool)
  | num (n : JNum)
  | str (s : String)
  | arr (elems : List Json)
  | obj (fields : List (String × Json))
deriving Repr

/-- The `LocationData` struct of `src/lib.rs` (lines 65-71):
`latitude`, `longitude`, `accuracy` are `f64`, `timestamp` is `i64`. -/
structure LocationData where
  latitude : Rat
  longitude : Rat
  accuracy : Rat
  timestamp : Int
deriving DecidableEq, Repr

/-- Smallest `i64` value, `-2^63`. -/
def I64_MIN : Int := -9223372036854775808

/-- Largest `i64` value, `2^63 - 1`. -/
def I64_MAX : Int := 9223372036854775807

/-- serde deserialization of an `f64` field from a JSON value: any JSON
number is accepted (`serde_json` converts integer literals to `f64`); all
other JSON types are a type error. -/
def getF64 : Json → Option Rat
  | .num (.int z) => some (z : Rat)
  | .num (.float q) => some q
  | _ => none

/-- serde deserialization of an `i64` field from a JSON value: only integer
literals in `i64` range are accepted; floating literals and non-numbers are a
type error. -/
def getI64 : Json → Option Int
  | .num (.int z) => if I64_MIN ≤ z ∧ z ≤ I64_MAX then some z else none
  | _ => none

/-- Final check of the derived `Deserialize` impl: after the field loop all
four fields must have been filled, otherwise the missing field is an error. -/
def finishFields : Option Rat → Option Rat → Option Rat → Option Int →
    Option LocationData
  | some la, some lo, some ac, some ts => some ⟨la, lo, ac, ts⟩
  | _, _, _, _ => none

/-- Filling one `f64` field slot with a parsed value: a slot already filled
is a duplicate-field error, a value of the wrong type is a type error,
otherwise deserialization continues with the slot filled. -/
def fillSlotF (slot : Option Rat) (parsed : Option Rat)
    (next : Rat → Option LocationData) : Option LocationData :=
  match slot with
  | some _ => none
  | none =>
    match parsed with
    | some q => next q
    | none => none

/-- Filling the `i64` field slot, as `fillSlotF`. -/
def fillSlotI (slot : Option Int) (parsed : Option Int)
    (next : Int → Option LocationData) : Option LocationData :=
  match slot with
  | some _ => none
  | none =>
    match parsed with
    | some z => next z
    | none => none

/-- The field loop of the derived `Deserialize` impl for `LocationData`
(`visit_map`): walk the key/value pairs in order, fill each of the four
fields at most once (a duplicate key is an error, as is a value of the wrong
type), ignore unknown keys, and require all four fields at the end. -/
def dfields : List (String × Json) → Option Rat → Option Rat → Option Rat →
    Option Int → Option LocationData
  | [], la, lo, ac, ts => finishFields la lo ac ts
  | (k, v) :: rest, la, lo, ac, ts =>
    if k = "latitude" then
      fillSlotF la (getF64 v) fun q => dfields rest (some q) lo ac ts
    else if k = "longitude" then
      fillSlotF lo (getF64 v) fun q => dfields rest la (some q) ac ts
    else if k = "accuracy" then
      fillSlotF ac (getF64 v) fun q => dfields rest la lo (some q) ts
    else if k = "timestamp" then
      fillSlotI ts (getI64 v) fun z => dfields rest la lo ac (some z)
    else
      dfields rest la lo ac ts

/-- `serde_json::from_str::<LocationData>` on a well-formed JSON document:
an object goes through the field loop; an array must have exactly four
elements typed in field declaration order (`visit_seq`); anything else is a
type error. -/
def fromJson : Json → Option LocationData
  | .obj fields => dfields fields none none none none
  | .arr [a, b, c, d] =>
    match getF64 a, getF64 b, getF64 c, getI64 d with
    | some la, some lo, some ac, some ts => some ⟨la, lo, ac, ts⟩
    | _, _, _, _ => none
  | _ => none

/-- A request body as read by `read_to_string`: either text that parses as
JSON, or malformed text (including the empty body left by a read error). -/
inductive Body where
  | json (j : Json)
  | malformed (s : String)

/-- `serde_json::from_str::<LocationData>(&content)` (line 105): malformed
text is a parse error, well-formed JSON is deserialized by `fromJson`. -/
def parseBody : Body → Option LocationData
  | .json j => fromJson j
  | .malformed _ => none

/-- The HTTP methods distinguished by the dispatch `match` (line 95). -/
inductive HMethod where
  | get
  | post
  | options
  | other (name : String)
deriving DecidableEq, Repr

/-- An incoming HTTP request as the accept loop sees it: method, URL, the
`Content-Type` header (present on the wire but never read by the code), and
the body. -/
structure HRequest where
  method : HMethod
  url : String
  contentType : Option String
  body : Body

/-- An HTTP response as built by the handler: status code, the headers set
by the code (including `tiny_http`'s `from_string` default content type),
and the body. -/
structure HResponse where
  status : Nat
  headers : List (String × String)
  body : String
deriving DecidableEq, Repr

/-- Outcome of handling one request: either respond and keep looping, or
respond, record the location and `break` out of the accept loop. -/
inductive Step where
  | cont (resp : HResponse)
  | done (resp : HResponse) (loc : LocationData)
deriving DecidableEq, Repr

/-- The body of the 200 response to a successful report. -/
def okBody : String := "\x7b\"status\":\"ok\"\x7d"

/-- Response to `GET /` (lines 96-100): `from_string(HTML_CONTENT)` with the
default content type replaced by `text/html; charset=utf-8`. -/
def pageResponse : HResponse :=
  ⟨200, [("Content-Type", "text/html; charset=utf-8")], HTML_CONTENT⟩

/-- Response to a successful `POST /update` (lines 119-122): the default
content type is replaced by `application/json` and the CORS origin header is
appended. -/
def okResponse : HResponse :=
  ⟨200, [("Content-Type", "application/json"),
         ("Access-Control-Allow-Origin", "*")], okBody⟩

/-- Response to a failed decode (line 136): `from_string("Invalid JSON")`
keeps its default content type and gets status 400. -/
def invalidResponse : HResponse :=
  ⟨400, [("Content-Type", "text/plain; charset=utf-8")], "Invalid JSON"⟩

/-- Response to `OPTIONS /update` (lines 139-145): `Response::empty(200)`
with the three CORS headers and an empty body. -/
def optionsResponse : HResponse :=
  ⟨200, [("Access-Control-Allow-Origin", "*"),
         ("Access-Control-Allow-Methods", "POST, OPTIONS"),
         ("Access-Control-Allow-Headers", "Content-Type")], ""⟩

/-- Response to every other method/path combination (lines 146-148). -/
def notFoundResponse : HResponse :=
  ⟨404, [("Content-Type", "text/plain; charset=utf-8")], "Not Found"⟩

/-- One iteration of the accept loop (the dispatch `match` of lines 95-149):
route on method and URL; only a `POST /update` whose body decodes as
`LocationData` records a result and breaks the loop. -/
def handle (r : HRequest) : Step :=
  match r.method, r.url with
  | .get, "/" => .cont pageResponse
  | .post, "/update" =>
    match parseBody r.body with
    | some loc => .done okResponse loc
    | none => .cont invalidResponse
  | .options, "/update" => .cont optionsResponse
  | _, _ => .cont (notFoundResponse)

/-- The accept loop (lines 94-150) over the sequence of incoming requests:
requests are handled one at a time in arrival order; the loop stops at the
end of the stream or immediately after responding to the first successful
report.  Returns the responses actually sent, in order, and the final value
of the `result` variable. -/
def serve : List HRequest → List HResponse × Option LocationData
  | [] => ([], none)
  | r :: rs =>
    match handle r with
    | .done resp loc => ([resp], some loc)
    | .cont resp =>
      let p := serve rs
      (resp :: p.1, p.2)

/-- `where_i_am` (lines 73-157), abstracted over the incoming request
stream: run the accept loop, then return `[latitude, longitude, accuracy]`
of the recorded result, or the empty vector when none was recorded. -/
def where_i_am (reqs : List HRequest) : List Rat :=
  match (serve reqs).2 with
  | some loc => [loc.latitude, loc.longitude, loc.accuracy]
  | none => []

/-! ## Helper lemmas about the accept loop -/

theorem serve_nil : serve [] = ([], none) := rfl

theorem serve_cons_done {r : HRequest} {rs : List HRequest} {resp : HResponse}
    {loc : LocationData} (h : handle r = .done resp loc) :
    serve (r :: rs) = ([resp], some loc) := by
  simp [serve, h]

theorem serve_cons_cont {r : HRequest} {rs : List HRequest} {resp : HResponse}
    (h : handle r = .cont resp) :
    serve (r :: rs) = (resp :: (serve rs).1, (serve rs).2) := by
  simp [serve, h]

/-- While no request has completed the session, the accept loop processes a
longer stream by processing the prefix and then the suffix. -/
theorem serve_append_of_none (pre rs : List HRequest)
    (h : (serve pre).2 = none) :
    serve (pre ++ rs) = ((serve pre).1 ++ (serve rs).1, (serve rs).2) := by
  induction pre with
  | nil => simp [serve_nil]
  | cons r pre ih =>
    cases hr : handle r with
    | done resp loc =>
      rw [serve_cons_done hr] at h
      simp at h
    | cont resp =>
      rw [serve_cons_cont hr] at h
      simp [List.cons_append, serve_cons_cont hr, ih h]

theorem handle_valid (ct : Option String) (b : Body) (loc : LocationData)
    (hb : parseBody b = some loc) :
    handle ⟨.post, "/update", ct, b⟩ = .done okResponse loc := by
  rw [show handle ⟨.post, "/update", ct, b⟩
        = (match parseBody b with
           | some l => Step.done okResponse l
           | none => Step.cont invalidResponse) from rfl, hb]

theorem handle_invalid (ct : Option String) (b : Body)
    (hb : parseBody b = none) :
    handle ⟨.post, "/update", ct, b⟩ = .cont invalidResponse := by
  rw [show handle ⟨.post, "/update", ct, b⟩
        = (match parseBody b with
           | some l => Step.done okResponse l
           | none => Step.cont invalidResponse) from rfl, hb]

theorem handle_options_update (ct : Option String) (b : Body) :
    handle ⟨.options, "/update", ct, b⟩ = .cont optionsResponse := rfl

theorem handle_get_root (ct : Option String) (b : Body) :
    handle ⟨.get, "/", ct, b⟩ = .cont pageResponse := rfl

/-! ## Concrete requests used to instantiate the theorems -/

/-- Scenario A report from the spec. -/
def jsonA : Json :=
  .obj [("latitude", .num (.float 37.5665)), ("longitude", .num (.float 126.978)),
        ("accuracy", .num (.float 12.5)), ("timestamp", .num (.int 1700000000000))]

/-- The location parsed from `jsonA`. -/
def locA : LocationData := ⟨37.5665, 126.978, 12.5, 1700000000000⟩

/-- A valid report POST carrying `jsonA`. -/
def reqA : HRequest := ⟨.post, "/update", some "application/json", .json jsonA⟩

/-- A second valid report POST, arriving after the first. -/
def reqB : HRequest :=
  ⟨.post, "/update", some "application/json",
   .json (.obj [("latitude", .num (.float 1.5)), ("longitude", .num (.float 2.5)),
                ("accuracy", .num (.float 3.5)), ("timestamp", .num (.int 1))])⟩

/-- A POST whose body is not JSON at all. -/
def reqBad : HRequest := ⟨.post, "/update", some "application/json", .malformed "not json"⟩

/-- A valid report POST used for the recovery part of the 400 scenario. -/
def jsonG : Json :=
  .obj [("latitude", .num (.float (-5.5))), ("longitude", .num (.float 44.25)),
        ("accuracy", .num (.float 1.25)), ("timestamp", .num (.int 9))]

/-- The location parsed from `jsonG`. -/
def locG : LocationData := ⟨-5.5, 44.25, 1.25, 9⟩

/-- A valid report POST carrying `jsonG`. -/
def reqG : HRequest := ⟨.post, "/update", some "application/json", .json jsonG⟩

/-- A CORS preflight request. -/
def reqOpt : HRequest := ⟨.options, "/update", none, .malformed ""⟩

/-- A page request for the root URL. -/
def reqGet : HRequest := ⟨.get, "/", none, .malformed ""⟩

/-! ## C1 -/

/-- C1: any `POST /update` whose body decodes as a `LocationData` (all four
fields present with the required numeric types) is answered 200 with body
`{"status":"ok"}`, `Content-Type: application/json` and
`Access-Control-Allow-Origin: *`, and the recorded session result is exactly
the decoded report — the loop stores the parsed numbers unchanged. -/
theorem valid_post_records_exact (pre : List HRequest) (r : HRequest)
    (loc : LocationData) (hpre : (serve pre).2 = none)
    (hm : r.method = .post) (hu : r.url = "/update")
    (hb : parseBody r.body = some loc) :
    serve (pre ++ [r]) =
      ((serve pre).1 ++
        [⟨200, [("Content-Type", "application/json"),
                ("Access-Control-Allow-Origin", "*")], okBody⟩], some loc) := by
  obtain ⟨m, u, ct, b⟩ := r
  obtain rfl : m = HMethod.post := hm
  obtain rfl : u = "/update" := hu
  rw [serve_append_of_none pre _ hpre, serve_cons_done (handle_valid ct b loc hb)]
  rfl

/-- C1 witness: the scenario-A report is accepted with the exact values. -/
theorem valid_post_records_exact_witness :
    serve ([] ++ [reqA]) =
      ((serve []).1 ++
        [⟨200, [("Content-Type", "application/json"),
                ("Access-Control-Allow-Origin", "*")], okBody⟩], some locA) :=
  valid_post_records_exact [] reqA locA rfl rfl rfl rfl

/-! ## C2 -/

/-- C2: the first valid `POST /update` terminates the accept loop: the
response to it is the last response ever sent, and no request arriving after
it — whatever it is, and however many there are — is processed or can change
the recorded session result. -/
theorem first_valid_post_terminates (pre rest : List HRequest) (r : HRequest)
    (loc : LocationData) (hpre : (serve pre).2 = none)
    (hm : r.method = .post) (hu : r.url = "/update")
    (hb : parseBody r.body = some loc) :
    serve (pre ++ r :: rest) = ((serve pre).1 ++ [okResponse], some loc) := by
  obtain ⟨m, u, ct, b⟩ := r
  obtain rfl : m = HMethod.post := hm
  obtain rfl : u = "/update" := hu
  rw [serve_append_of_none pre _ hpre, serve_cons_done (handle_valid ct b loc hb)]

/-- C2 witness: a second valid report queued behind the first is never
observed — the result stays the first report's values and only one `ok`
response is sent. -/
theorem first_valid_post_terminates_witness :
    serve ([] ++ reqA :: [reqB]) = ((serve []).1 ++ [okResponse], some locA) :=
  first_valid_post_terminates [] [reqB] reqA locA rfl rfl rfl rfl

/-! ## C3 -/

/-- C3: a `POST /update` whose body does not decode (non-JSON text, or JSON
missing one of the four required numeric fields) is answered 400 with body
`Invalid JSON`, records nothing, and leaves the loop running: a later valid
POST still succeeds and completes the session with its report. -/
theorem invalid_post_keeps_session (pre : List HRequest) (r g : HRequest)
    (loc : LocationData)
    (hm : r.method = .post) (hu : r.url = "/update")
    (hb : parseBody r.body = none)
    (hpre : (serve pre).2 = none)
    (hgm : g.method = .post) (hgu : g.url = "/update")
    (hgb : parseBody g.body = some loc) :
    handle r = .cont ⟨400, [("Content-Type", "text/plain; charset=utf-8")],
                      "Invalid JSON"⟩
    ∧ (serve (pre ++ [r])).2 = none
    ∧ serve (pre ++ [r, g]) =
        ((serve pre).1 ++ [invalidResponse, okResponse], some loc) := by
  obtain ⟨m, u, ct, b⟩ := r
  obtain rfl : m = HMethod.post := hm
  obtain rfl : u = "/update" := hu
  obtain ⟨gm, gu, gct, gb⟩ := g
  obtain rfl : gm = HMethod.post := hgm
  obtain rfl : gu = "/update" := hgu
  refine ⟨handle_invalid ct b hb, ?_, ?_⟩
  · rw [serve_append_of_none pre _ hpre, serve_cons_cont (handle_invalid ct b hb)]
    rfl
  · rw [serve_append_of_none pre _ hpre,
        serve_cons_cont (handle_invalid ct b hb),
        serve_cons_done (handle_valid gct gb loc hgb)]

/-- C3 witness: `{"latitude":"bad"}`-style garbage gets 400, then a valid
report still completes the session. -/
theorem invalid_post_keeps_session_witness :
    handle reqBad = .cont ⟨400, [("Content-Type", "text/plain; charset=utf-8")],
                           "Invalid JSON"⟩
    ∧ (serve ([] ++ [reqBad])).2 = none
    ∧ serve ([] ++ [reqBad, reqG]) =
        ((serve []).1 ++ [invalidResponse, okResponse], some locG) :=
  invalid_post_keeps_session [] reqBad reqG locG rfl rfl rfl rfl rfl rfl rfl

/-! ## C4: field lookup and the acceptance characterization -/

/-- First value stored under key `k`, in field order (JSON object lookup). -/
def lookupField (k : String) : List (String × Json) → Option Json
  | [] => none
  | (k2, v) :: rest => if k2 = k then some v else lookupField k rest

theorem lookupField_cons_self (k : String) (v : Json)
    (rest : List (String × Json)) :
    lookupField k ((k, v) :: rest) = some v := by
  rw [lookupField, if_pos rfl]

theorem lookupField_cons_ne (k k2 : String) (v : Json)
    (rest : List (String × Json)) (h : ¬(k2 = k)) :
    lookupField k ((k2, v) :: rest) = lookupField k rest := by
  rw [lookupField, if_neg h]

theorem lookupField_eq_none {k : String} {fields : List (String × Json)}
    (h : k ∉ fields.map Prod.fst) : lookupField k fields = none := by
  induction fields with
  | nil => rfl
  | cons p rest ih =>
    obtain ⟨k2, v⟩ := p
    simp only [List.map_cons, List.mem_cons] at h
    push_neg at h
    rw [lookupField_cons_ne k k2 v rest (fun he => h.1 he.symm), ih h.2]

/-- Value of an `f64` field slot after the whole object is processed: a slot
already filled keeps its value, an empty slot is filled from the remaining
fields. -/
def resolveF (st : Option Rat) (k : String)
    (fields : List (String × Json)) : Option Rat :=
  match st with
  | some x => some x
  | none => (lookupField k fields).bind getF64

/-- Value of the `i64` field slot, as `resolveF`. -/
def resolveI (st : Option Int) (k : String)
    (fields : List (String × Json)) : Option Int :=
  match st with
  | some x => some x
  | none => (lookupField k fields).bind getI64

theorem resolveF_some (x : Rat) (k : String) (fields : List (String × Json)) :
    resolveF (some x) k fields = some x := rfl

theorem resolveF_none (k : String) (fields : List (String × Json)) :
    resolveF none k fields = (lookupField k fields).bind getF64 := rfl

theorem resolveI_some (x : Int) (k : String) (fields : List (String × Json)) :
    resolveI (some x) k fields = some x := rfl

theorem resolveI_none (k : String) (fields : List (String × Json)) :
    resolveI none k fields = (lookupField k fields).bind getI64 := rfl

theorem resolveF_cons_ne (st : Option Rat) (k k2 : String) (v : Json)
    (rest : List (String × Json)) (h : ¬(k2 = k)) :
    resolveF st k ((k2, v) :: rest) = resolveF st k rest := by
  cases st with
  | some x => rfl
  | none => rw [resolveF_none, resolveF_none, lookupField_cons_ne k k2 v rest h]

theorem resolveI_cons_ne (st : Option Int) (k k2 : String) (v : Json)
    (rest : List (String × Json)) (h : ¬(k2 = k)) :
    resolveI st k ((k2, v) :: rest) = resolveI st k rest := by
  cases st with
  | some x => rfl
  | none => rw [resolveI_none, resolveI_none, lookupField_cons_ne k k2 v rest h]

/-- Acceptance following the spec's words: the record is accepted exactly
when each of `latitude`, `longitude`, `accuracy` is present with a numeric
value and `timestamp` is present with an integer value; the accepted record
is built from those four field values. -/
def specAccepts (fields : List (String × Json)) : Option LocationData :=
  finishFields ((lookupField "latitude" fields).bind getF64)
    ((lookupField "longitude" fields).bind getF64)
    ((lookupField "accuracy" fields).bind getF64)
    ((lookupField "timestamp" fields).bind getI64)


/-! ## Step lemmas for the field loop -/

theorem fillSlotF_dup (x : Rat) (p : Option Rat)
    (next : Rat → Option LocationData) : fillSlotF (some x) p next = none := rfl

theorem fillSlotF_ok (q : Rat) (next : Rat → Option LocationData) :
    fillSlotF none (some q) next = next q := rfl

theorem fillSlotF_bad (next : Rat → Option LocationData) :
    fillSlotF none none next = none := rfl

theorem fillSlotI_ok (z : Int) (next : Int → Option LocationData) :
    fillSlotI none (some z) next = next z := rfl

theorem fillSlotI_bad (next : Int → Option LocationData) :
    fillSlotI none none next = none := rfl

theorem finishFields_n1 (b c : Option Rat) (d : Option Int) :
    finishFields none b c d = none := by
  cases b <;> cases c <;> cases d <;> rfl

theorem finishFields_n2 (a c : Option Rat) (d : Option Int) :
    finishFields a none c d = none := by
  cases a <;> cases c <;> cases d <;> rfl

theorem finishFields_n3 (a b : Option Rat) (d : Option Int) :
    finishFields a b none d = none := by
  cases a <;> cases b <;> cases d <;> rfl

theorem finishFields_n4 (a b c : Option Rat) :
    finishFields a b c none = none := by
  cases a <;> cases b <;> cases c <;> rfl

theorem dfields_cons_lat (v : Json) (rest : List (String × Json))
    (la lo ac : Option Rat) (ts : Option Int) :
    dfields (("latitude", v) :: rest) la lo ac ts
      = fillSlotF la (getF64 v) fun q => dfields rest (some q) lo ac ts := rfl

theorem dfields_cons_lon (v : Json) (rest : List (String × Json))
    (la lo ac : Option Rat) (ts : Option Int) :
    dfields (("longitude", v) :: rest) la lo ac ts
      = fillSlotF lo (getF64 v) fun q => dfields rest la (some q) ac ts := rfl

theorem dfields_cons_acc (v : Json) (rest : List (String × Json))
    (la lo ac : Option Rat) (ts : Option Int) :
    dfields (("accuracy", v) :: rest) la lo ac ts
      = fillSlotF ac (getF64 v) fun q => dfields rest la lo (some q) ts := rfl

theorem dfields_cons_tsp (v : Json) (rest : List (String × Json))
    (la lo ac : Option Rat) (ts : Option Int) :
    dfields (("timestamp", v) :: rest) la lo ac ts
      = fillSlotI ts (getI64 v) fun z => dfields rest la lo ac (some z) := rfl

theorem dfields_cons_other (k : String) (v : Json) (rest : List (String × Json))
    (la lo ac : Option Rat) (ts : Option Int)
    (h1 : ¬(k = "latitude")) (h2 : ¬(k = "longitude"))
    (h3 : ¬(k = "accuracy")) (h4 : ¬(k = "timestamp")) :
    dfields ((k, v) :: rest) la lo ac ts = dfields rest la lo ac ts := by
  rw [show dfields ((k, v) :: rest) la lo ac ts
        = (if k = "latitude" then
             fillSlotF la (getF64 v) fun q => dfields rest (some q) lo ac ts
           else if k = "longitude" then
             fillSlotF lo (getF64 v) fun q => dfields rest la (some q) ac ts
           else if k = "accuracy" then
             fillSlotF ac (getF64 v) fun q => dfields rest la lo (some q) ts
           else if k = "timestamp" then
             fillSlotI ts (getI64 v) fun z => dfields rest la lo ac (some z)
           else dfields rest la lo ac ts) from rfl,
      if_neg h1, if_neg h2, if_neg h3, if_neg h4]

theorem dfields_lat_ok (v : Json) (rest : List (String × Json))
    (lo ac : Option Rat) (ts : Option Int) (q : Rat) (hv : getF64 v = some q) :
    dfields (("latitude", v) :: rest) none lo ac ts
      = dfields rest (some q) lo ac ts := by
  rw [dfields_cons_lat, hv, fillSlotF_ok]

theorem dfields_lat_bad (v : Json) (rest : List (String × Json))
    (lo ac : Option Rat) (ts : Option Int) (hv : getF64 v = none) :
    dfields (("latitude", v) :: rest) none lo ac ts = none := by
  rw [dfields_cons_lat, hv, fillSlotF_bad]

theorem dfields_lon_ok (v : Json) (rest : List (String × Json))
    (la ac : Option Rat) (ts : Option Int) (q : Rat) (hv : getF64 v = some q) :
    dfields (("longitude", v) :: rest) la none ac ts
      = dfields rest la (some q) ac ts := by
  rw [dfields_cons_lon, hv, fillSlotF_ok]

theorem dfields_lon_bad (v : Json) (rest : List (String × Json))
    (la ac : Option Rat) (ts : Option Int) (hv : getF64 v = none) :
    dfields (("longitude", v) :: rest) la none ac ts = none := by
  rw [dfields_cons_lon, hv, fillSlotF_bad]

theorem dfields_acc_ok (v : Json) (rest : List (String × Json))
    (la lo : Option Rat) (ts : Option Int) (q : Rat) (hv : getF64 v = some q) :
    dfields (("accuracy", v) :: rest) la lo none ts
      = dfields rest la lo (some q) ts := by
  rw [dfields_cons_acc, hv, fillSlotF_ok]

theorem dfields_acc_bad (v : Json) (rest : List (String × Json))
    (la lo : Option Rat) (ts : Option Int) (hv : getF64 v = none) :
    dfields (("accuracy", v) :: rest) la lo none ts = none := by
  rw [dfields_cons_acc, hv, fillSlotF_bad]

theorem dfields_tsp_ok (v : Json) (rest : List (String × Json))
    (la lo ac : Option Rat) (z : Int) (hv : getI64 v = some z) :
    dfields (("timestamp", v) :: rest) la lo ac none
      = dfields rest la lo ac (some z) := by
  rw [dfields_cons_tsp, hv, fillSlotI_ok]

theorem dfields_tsp_bad (v : Json) (rest : List (String × Json))
    (la lo ac : Option Rat) (hv : getI64 v = none) :
    dfields (("timestamp", v) :: rest) la lo ac none = none := by
  rw [dfields_cons_tsp, hv, fillSlotI_bad]

/-- The serde field loop on a duplicate-free object computes exactly the
four resolved field slots (generalized over the running state: a slot that
is already filled must not occur again among the remaining fields). -/
theorem dfields_resolve (fields : List (String × Json))
    (la lo ac : Option Rat) (ts : Option Int)
    (hnd : (fields.map Prod.fst).Nodup)
    (hla : la.isSome → lookupField "latitude" fields = none)
    (hlo : lo.isSome → lookupField "longitude" fields = none)
    (hac : ac.isSome → lookupField "accuracy" fields = none)
    (hts : ts.isSome → lookupField "timestamp" fields = none) :
    dfields fields la lo ac ts =
      finishFields (resolveF la "latitude" fields)
        (resolveF lo "longitude" fields)
        (resolveF ac "accuracy" fields)
        (resolveI ts "timestamp" fields) := by
  induction fields generalizing la lo ac ts with
  | nil => cases la <;> cases lo <;> cases ac <;> cases ts <;> rfl
  | cons p rest ih =>
    obtain ⟨k, v⟩ := p
    rw [List.map_cons, List.nodup_cons] at hnd
    by_cases h1 : k = "latitude"
    · subst h1
      cases la with
      | some x =>
        have hc := hla rfl
        rw [lookupField_cons_self] at hc
        exact absurd hc (by simp)
      | none =>
        cases hv : getF64 v with
        | none =>
          rw [dfields_lat_bad v rest lo ac ts hv, resolveF_none,
              lookupField_cons_self, Option.some_bind, hv, finishFields_n1]
        | some q =>
          rw [dfields_lat_ok v rest lo ac ts q hv,
              ih (some q) lo ac ts hnd.2 (fun _ => lookupField_eq_none hnd.1)
                (fun hs => by
                  have hc := hlo hs
                  rwa [lookupField_cons_ne _ _ v rest (by decide)] at hc)
                (fun hs => by
                  have hc := hac hs
                  rwa [lookupField_cons_ne _ _ v rest (by decide)] at hc)
                (fun hs => by
                  have hc := hts hs
                  rwa [lookupField_cons_ne _ _ v rest (by decide)] at hc),
              resolveF_some, resolveF_cons_ne lo _ _ v rest (by decide),
              resolveF_cons_ne ac _ _ v rest (by decide),
              resolveI_cons_ne ts _ _ v rest (by decide), resolveF_none,
              lookupField_cons_self, Option.some_bind, hv]
    · by_cases h2 : k = "longitude"
      · subst h2
        cases lo with
        | some x =>
          have hc := hlo rfl
          rw [lookupField_cons_self] at hc
          exact absurd hc (by simp)
        | none =>
          cases hv : getF64 v with
          | none =>
            rw [dfields_lon_bad v rest la ac ts hv, resolveF_none,
                lookupField_cons_self, Option.some_bind, hv, finishFields_n2]
          | some q =>
            rw [dfields_lon_ok v rest la ac ts q hv,
                ih la (some q) ac ts hnd.2
                  (fun hs => by
                    have hc := hla hs
                    rwa [lookupField_cons_ne _ _ v rest (by decide)] at hc)
                  (fun _ => lookupField_eq_none hnd.1)
                  (fun hs => by
                    have hc := hac hs
                    rwa [lookupField_cons_ne _ _ v rest (by decide)] at hc)
                  (fun hs => by
                    have hc := hts hs
                    rwa [lookupField_cons_ne _ _ v rest (by decide)] at hc),
                resolveF_some, resolveF_cons_ne la _ _ v rest (by decide),
                resolveF_cons_ne ac _ _ v rest (by decide),
                resolveI_cons_ne ts _ _ v rest (by decide), resolveF_none,
                lookupField_cons_self, Option.some_bind, hv]
      · by_cases h3 : k = "accuracy"
        · subst h3
          cases ac with
          | some x =>
            have hc := hac rfl
            rw [lookupField_cons_self] at hc
            exact absurd hc (by simp)
          | none =>
            cases hv : getF64 v with
            | none =>
              rw [dfields_acc_bad v rest la lo ts hv, resolveF_none,
                  lookupField_cons_self, Option.some_bind, hv, finishFields_n3]
            | some q =>
              rw [dfields_acc_ok v rest la lo ts q hv,
                  ih la lo (some q) ts hnd.2
                    (fun hs => by
                      have hc := hla hs
                      rwa [lookupField_cons_ne _ _ v rest (by decide)] at hc)
                    (fun hs => by
                      have hc := hlo hs
                      rwa [lookupField_cons_ne _ _ v rest (by decide)] at hc)
                    (fun _ => lookupField_eq_none hnd.1)
                    (fun hs => by
                      have hc := hts hs
                      rwa [lookupField_cons_ne _ _ v rest (by decide)] at hc),
                  resolveF_some, resolveF_cons_ne la _ _ v rest (by decide),
                  resolveF_cons_ne lo _ _ v rest (by decide),
                  resolveI_cons_ne ts _ _ v rest (by decide), resolveF_none,
                  lookupField_cons_self, Option.some_bind, hv]
        · by_cases h4 : k = "timestamp"
          · subst h4
            cases ts with
            | some x =>
              have hc := hts rfl
              rw [lookupField_cons_self] at hc
              exact absurd hc (by simp)
            | none =>
              cases hv : getI64 v with
              | none =>
                rw [dfields_tsp_bad v rest la lo ac hv, resolveI_none,
                    lookupField_cons_self, Option.some_bind, hv, finishFields_n4]
              | some z =>
                rw [dfields_tsp_ok v rest la lo ac z hv,
                    ih la lo ac (some z) hnd.2
                      (fun hs => by
                        have hc := hla hs
                        rwa [lookupField_cons_ne _ _ v rest (by decide)] at hc)
                      (fun hs => by
                        have hc := hlo hs
                        rwa [lookupField_cons_ne _ _ v rest (by decide)] at hc)
                      (fun hs => by
                        have hc := hac hs
                        rwa [lookupField_cons_ne _ _ v rest (by decide)] at hc)
                      (fun _ => lookupField_eq_none hnd.1),
                    resolveI_some, resolveF_cons_ne la _ _ v rest (by decide),
                    resolveF_cons_ne lo _ _ v rest (by decide),
                    resolveF_cons_ne ac _ _ v rest (by decide), resolveI_none,
                    lookupField_cons_self, Option.some_bind, hv]
          · rw [dfields_cons_other k v rest la lo ac ts h1 h2 h3 h4,
                ih la lo ac ts hnd.2
                  (fun hs => by
                    have hc := hla hs
                    rwa [lookupField_cons_ne _ _ v rest h1] at hc)
                  (fun hs => by
                    have hc := hlo hs
                    rwa [lookupField_cons_ne _ _ v rest h2] at hc)
                  (fun hs => by
                    have hc := hac hs
                    rwa [lookupField_cons_ne _ _ v rest h3] at hc)
                  (fun hs => by
                    have hc := hts hs
                    rwa [lookupField_cons_ne _ _ v rest h4] at hc),
                resolveF_cons_ne la _ _ v rest h1,
                resolveF_cons_ne lo _ _ v rest h2,
                resolveF_cons_ne ac _ _ v rest h3,
                resolveI_cons_ne ts _ _ v rest h4]

/-- Fields of the C4 counterexample object: all four required keys carry
JSON numbers, but the `timestamp` value is the non-integer number `3/2`. -/
def cexFields : List (String × Json) :=
  [("latitude", .num (.int 1)), ("longitude", .num (.int 2)),
   ("accuracy", .num (.int 3)), ("timestamp", .num (.float (3 / 2)))]

/-- C4 counterexample: a JSON object in which all four required fields are
present and numeric is nevertheless rejected by the decoder — `timestamp`
holds the number `3/2`, which is numeric but not an integer, so no record is
accepted; presence plus numericity is not sufficient. -/
theorem numeric_fields_not_sufficient :
    lookupField "latitude" cexFields = some (.num (.int 1))
    ∧ lookupField "longitude" cexFields = some (.num (.int 2))
    ∧ lookupField "accuracy" cexFields = some (.num (.int 3))
    ∧ lookupField "timestamp" cexFields = some (.num (.float (3 / 2)))
    ∧ fromJson (.obj cexFields) = none :=
  ⟨rfl, rfl, rfl, rfl, rfl⟩

/-- C4 amended: for a JSON object body without duplicate keys, the report is
accepted exactly when `latitude`, `longitude` and `accuracy` are present and
numeric and `timestamp` is present and an integer in `i64` range, and the
accepted record is built from exactly those four field values — so no
partial record is ever accepted.  (The serde decoder also accepts a JSON
array of exactly four such values positionally; object bodies are what the
bootstrap page posts.) -/
theorem object_accept_characterization (fields : List (String × Json))
    (h : (fields.map Prod.fst).Nodup) :
    fromJson (.obj fields) = specAccepts fields := by
  have h0 := dfields_resolve fields none none none none h
    (by simp) (by simp) (by simp) (by simp)
  rw [show fromJson (.obj fields) = dfields fields none none none none from rfl,
      h0]
  rfl

/-- C4 amended witness: the characterization applied to the counterexample
object, whose keys are duplicate-free. -/
theorem object_accept_characterization_witness :
    (cexFields.map Prod.fst).Nodup
    ∧ fromJson (.obj cexFields) = specAccepts cexFields :=
  ⟨by decide, object_accept_characterization cexFields (by decide)⟩

/-! ## C5 -/

/-- A valid report body sent with a wrong content type. -/
def jsonC5 : Json :=
  .obj [("latitude", .num (.float 10.25)), ("longitude", .num (.float 20.5)),
        ("accuracy", .num (.float 5)), ("timestamp", .num (.int 1700000000001))]

/-- The location parsed from `jsonC5`. -/
def locC5 : LocationData := ⟨10.25, 20.5, 5, 1700000000001⟩

/-- A `POST /update` carrying `jsonC5` with content type `text/plain`. -/
def reqC5 : HRequest := ⟨.post, "/update", some "text/plain", .json jsonC5⟩

/-- C5 counterexample: a `POST /update` with the wrong content type
(`text/plain` instead of `application/json`) but a decodable body is not
rejected with 400 — the handler never reads the content type, so the request
is answered 200 and its report is recorded as the session result. -/
theorem wrong_content_type_accepted :
    reqC5.contentType = some "text/plain"
    ∧ serve [reqC5] = ([okResponse], some locC5)
    ∧ okResponse.status = 200 :=
  ⟨rfl, rfl, rfl⟩

/-- C5 amended: the server ignores the content type entirely — the handler's
answer depends only on method, URL and body.  A `POST /update` whose body
does not decode is answered 400 and the session continues, whatever the
content type; one whose body decodes is accepted, whatever the content type
(see the counterexample). -/
theorem content_type_ignored (m : HMethod) (u : String) (ct ct2 : Option String)
    (b : Body) (pre : List HRequest)
    (hm : m = .post) (hu : u = "/update") (hb : parseBody b = none)
    (hpre : (serve pre).2 = none) :
    handle ⟨m, u, ct, b⟩ = handle ⟨m, u, ct2, b⟩
    ∧ handle ⟨m, u, ct, b⟩ = .cont invalidResponse
    ∧ (serve (pre ++ [⟨m, u, ct, b⟩])).2 = none := by
  subst hm
  subst hu
  refine ⟨rfl, handle_invalid ct b hb, ?_⟩
  rw [serve_append_of_none pre _ hpre, serve_cons_cont (handle_invalid ct b hb)]
  rfl

/-- C5 witness: the 400 answer for an undecodable body is the same whether
the content type is `text/plain` or `application/json`. -/
theorem content_type_ignored_witness :
    handle ⟨.post, "/update", some "text/plain", .malformed "x"⟩
      = handle ⟨.post, "/update", some "application/json", .malformed "x"⟩
    ∧ handle ⟨.post, "/update", some "text/plain", .malformed "x"⟩
      = .cont invalidResponse
    ∧ (serve ([] ++ [⟨.post, "/update", some "text/plain", .malformed "x"⟩])).2
      = none :=
  content_type_ignored .post "/update" (some "text/plain")
    (some "application/json") (.malformed "x") [] rfl rfl rfl rfl

/-! ## C6 -/

/-- C6: every `OPTIONS /update` processed by the accept loop — whatever the
session has seen before, as long as it has not completed — is answered 200
with an empty body and the three CORS headers, and changes nothing. -/
theorem options_preflight (r : HRequest) (pre : List HRequest)
    (hm : r.method = .options) (hu : r.url = "/update")
    (hpre : (serve pre).2 = none) :
    handle r = .cont ⟨200, [("Access-Control-Allow-Origin", "*"),
                            ("Access-Control-Allow-Methods", "POST, OPTIONS"),
                            ("Access-Control-Allow-Headers", "Content-Type")], ""⟩
    ∧ serve (pre ++ [r]) = ((serve pre).1 ++ [optionsResponse], none) := by
  obtain ⟨m, u, ct, b⟩ := r
  obtain rfl : m = HMethod.options := hm
  obtain rfl : u = "/update" := hu
  refine ⟨rfl, ?_⟩
  rw [serve_append_of_none pre _ hpre, serve_cons_cont (handle_options_update ct b)]
  rfl

/-- C6 witness: a preflight after a page request gets the full CORS answer. -/
theorem options_preflight_witness :
    handle reqOpt = .cont ⟨200, [("Access-Control-Allow-Origin", "*"),
                                 ("Access-Control-Allow-Methods", "POST, OPTIONS"),
                                 ("Access-Control-Allow-Headers", "Content-Type")], ""⟩
    ∧ serve ([reqGet] ++ [reqOpt]) = ((serve [reqGet]).1 ++ [optionsResponse], none) :=
  options_preflight reqOpt [reqGet] rfl rfl rfl

/-! ## C7 -/

/-- C7: every `GET /` processed before completion is answered 200 with
`Content-Type: text/html; charset=utf-8` and the one fixed bootstrap page
constant as body — the same constant response for every such request. -/
theorem get_root_serves_fixed_page (r : HRequest) (pre : List HRequest)
    (hm : r.method = .get) (hu : r.url = "/")
    (hpre : (serve pre).2 = none) :
    handle r = .cont ⟨200, [("Content-Type", "text/html; charset=utf-8")],
                      HTML_CONTENT⟩
    ∧ serve (pre ++ [r]) = ((serve pre).1 ++ [pageResponse], none) := by
  obtain ⟨m, u, ct, b⟩ := r
  obtain rfl : m = HMethod.get := hm
  obtain rfl : u = "/" := hu
  refine ⟨rfl, ?_⟩
  rw [serve_append_of_none pre _ hpre, serve_cons_cont (handle_get_root ct b)]
  rfl

/-- C7 witness: the page request gets the fixed page. -/
theorem get_root_serves_fixed_page_witness :
    handle reqGet = .cont ⟨200, [("Content-Type", "text/html; charset=utf-8")],
                           HTML_CONTENT⟩
    ∧ serve ([] ++ [reqGet]) = ((serve []).1 ++ [pageResponse], none) :=
  get_root_serves_fixed_page reqGet [] rfl rfl rfl

/-! ## C8 -/

/-- C8: the caller-facing operation returns either an explicit empty result
(the empty vector) or a populated result taken from the recorded report; on
the spec's scenario A it returns exactly `[37.5665, 126.978, 12.5]`. -/
theorem where_i_am_shape_and_scenario (reqs : List HRequest) :
    (where_i_am reqs = [] ∨ ∃ loc : LocationData,
        (serve reqs).2 = some loc
        ∧ where_i_am reqs = [loc.latitude, loc.longitude, loc.accuracy])
    ∧ where_i_am [reqA] = [(37.5665 : Rat), 126.978, 12.5] := by
  constructor
  · cases h : (serve reqs).2 with
    | none => exact Or.inl (by simp only [where_i_am, h])
    | some loc => exact Or.inr ⟨loc, rfl, by simp only [where_i_am, h]⟩
  · rfl

/-! ## C9 -/

/-- A report whose latitude 91 lies outside the declared range [-90, 90]. -/
def json91 : Json :=
  .obj [("latitude", .num (.float 91)), ("longitude", .num (.float 0)),
        ("accuracy", .num (.float 0)), ("timestamp", .num (.int 0))]

/-- A `POST /update` carrying `json91`. -/
def req91 : HRequest := ⟨.post, "/update", some "application/json", .json json91⟩

/-- C9 counterexample: the report with latitude 91 is accepted and recorded
as the session result even though 91 lies outside [-90, 90] — the server
performs no range validation. -/
theorem out_of_range_report_accepted :
    (serve [req91]).2 = some ⟨91, 0, 0, 0⟩ ∧ ¬((91 : Rat) ≤ 90) :=
  ⟨rfl, by norm_num⟩

/-- An object report carrying arbitrary field values. -/
def mkReport (la lo ac : Rat) (ts : Int) : Json :=
  .obj [("latitude", .num (.float la)), ("longitude", .num (.float lo)),
        ("accuracy", .num (.float ac)), ("timestamp", .num (.int ts))]

/-- C9 amended: acceptance depends only on the shape of the report, never on
the values — any numbers whatsoever for latitude, longitude and accuracy and
any `i64` timestamp are accepted verbatim, so accepted records need not lie
in the declared ranges. -/
theorem accepted_values_unconstrained (la lo ac : Rat) (ts : Int)
    (h1 : I64_MIN ≤ ts) (h2 : ts ≤ I64_MAX) :
    fromJson (mkReport la lo ac ts) = some ⟨la, lo, ac, ts⟩ := by
  have hz : getI64 (.num (.int ts)) = some ts := by
    rw [show getI64 (.num (.int ts))
          = (if I64_MIN ≤ ts ∧ ts ≤ I64_MAX then some ts else none) from rfl,
        if_pos ⟨h1, h2⟩]
  rw [show fromJson (mkReport la lo ac ts)
        = dfields [("timestamp", (.num (.int ts) : Json))]
            (some la) (some lo) (some ac) none from rfl,
      dfields_tsp_ok _ _ _ _ _ ts hz]
  rfl

/-- C9 amended witness: latitude 1000, longitude -200 and accuracy -1 — all
outside their declared ranges — are accepted unchanged. -/
theorem accepted_values_unconstrained_witness :
    I64_MIN ≤ (0 : Int) ∧ (0 : Int) ≤ I64_MAX
    ∧ fromJson (mkReport 1000 (-200) (-1) 0) = some ⟨1000, -200, -1, 0⟩ :=
  ⟨by decide, by decide,
   accepted_values_unconstrained 1000 (-200) (-1) 0 (by decide) (by decide)⟩

/-! ## C10 -/

/-- A valid report used to instantiate the projection property. -/
def jsonC10 : Json :=
  .obj [("latitude", .num (.float 7.25)), ("longitude", .num (.float (-8.5))),
        ("accuracy", .num (.float 0.75)), ("timestamp", .num (.int 42))]

/-- The location parsed from `jsonC10`. -/
def locC10 : LocationData := ⟨7.25, -8.5, 0.75, 42⟩

/-- A `POST /update` carrying `jsonC10`. -/
def reqC10 : HRequest := ⟨.post, "/update", some "application/json", .json jsonC10⟩

/-- C10: the returned vector is empty exactly when no report was recorded,
and when a report was recorded it is exactly the three values latitude,
longitude, accuracy of that report, in that order — the report's parsed
timestamp is never part of the returned value. -/
theorem where_i_am_projects_result (reqs : List HRequest) :
    (where_i_am reqs = [] ↔ (serve reqs).2 = none)
    ∧ ∀ loc : LocationData, (serve reqs).2 = some loc →
        where_i_am reqs = [loc.latitude, loc.longitude, loc.accuracy] := by
  constructor
  · constructor
    · intro hw
      cases h : (serve reqs).2 with
      | none => rfl
      | some loc =>
        rw [show where_i_am reqs = [loc.latitude, loc.longitude, loc.accuracy]
              from by simp only [where_i_am, h]] at hw
        exact absurd hw (by simp)
    · intro h
      simp only [where_i_am, h]
  · intro loc h
    simp only [where_i_am, h]

/-- C10 witness: the projection applied to a concrete accepted report. -/
theorem where_i_am_projects_result_witness :
    where_i_am [reqC10] = [locC10.latitude, locC10.longitude, locC10.accuracy] :=
  (where_i_am_projects_result [reqC10]).2 locC10 rfl
